import Mathlib

/-!
Verification of the minacalc-overlay synchronization loop (src/main.rs).

The loop polls a companion API for the live gameplay snapshot, resolves the
playback-rate multiplier, fetches raw chart bytes, fingerprints them, and —
when the (fingerprint, formatted rate) pair changed — runs the external
difficulty engine and publishes an msd.json document.

Modelling conventions:
* Rust `f32` rate and score values are modelled as exact rationals (ℚ); the
  rate-extraction and assembly code only moves these values around, it does
  no arithmetic on them.
* Raw chart bytes are `List Nat`.
* The external collaborators (sha1_smol fingerprint, UTF-8 decoding,
  rosu_map parsing + security check + note conversion + the engine call
  `calc_ssr(notes, rate, 93.0)`) are an abstract `Engine` record of
  deterministic functions; the fallible stages return `Option`.
-/

namespace MinacalcOverlay

/-- `ModSettings` of src/main.rs (lines 54-58): optional speed-change value. -/
structure ModSettings where
  speed_change : Option ℚ
deriving DecidableEq

/-- `ModEntry` of src/main.rs (lines 48-53): one entry of the mods array. -/
structure ModEntry where
  settings : ModSettings
  rate : Option ℚ
deriving DecidableEq

/-- `ModsV2` of src/main.rs (lines 41-47): mods structure of the v2 snapshot. -/
structure ModsV2 where
  name : Option String
  array : Option (List ModEntry)
  rate : Option ℚ
deriving DecidableEq

/-- `PlayV2` of src/main.rs (line 40). -/
structure PlayV2 where
  mods : ModsV2
deriving DecidableEq

/-- `BeatmapV2` of src/main.rs (line 38): optional display metadata. -/
structure BeatmapV2 where
  artist : Option String
  title : Option String
  version : Option String
deriving DecidableEq

/-- `JsonV2` of src/main.rs (lines 30-36): the decoded live-state snapshot
(`LiveStateSnapshot` in the spec); `mods` may also appear at the root. -/
structure JsonV2 where
  beatmap : BeatmapV2
  play : PlayV2
  mods : Option ModsV2
deriving DecidableEq

/-- Does `pat` occur as a contiguous sublist of `s`? -/
def charsContain (pat : List Char) : List Char → Bool
  | [] => pat.isEmpty
  | c :: rest => List.isPrefixOf pat (c :: rest) || charsContain pat rest

/-- Substring containment, mirroring Rust `str::contains` on literal
patterns. -/
def strContains (s pat : String) : Bool :=
  charsContain pat.toList s.toList

/-- First source of `extract_rate_from_v2` (line 230): the explicit
`play.mods.rate` field. -/
def primaryExplicitRate (v2 : JsonV2) : Option ℚ :=
  v2.play.mods.rate

/-- The rate carried by the first entry of a mods array: its explicit `rate`,
else its `settings.speed_change` (the closure of lines 231-233 / 236). -/
def firstEntryRate (m : ModsV2) : Option ℚ :=
  (m.array.bind (fun a => a.get? 0)).bind (fun e => e.rate.or e.settings.speed_change)

/-- Second source of `extract_rate_from_v2` (lines 231-233): first entry of
the `play.mods.array`. -/
def primaryArrayRate (v2 : JsonV2) : Option ℚ :=
  firstEntryRate v2.play.mods

/-- Third source of `extract_rate_from_v2` (lines 235-237): root-level
`mods`, its explicit rate else its first array entry. -/
def rootModsRate (v2 : JsonV2) : Option ℚ :=
  v2.mods.bind (fun m => m.rate.or (firstEntryRate m))

/-- Mod-name fallback of `extract_rate_from_v2` (lines 239-244): derive the
rate from `play.mods.name` (DT/NC ↦ 1.5, HT/DC ↦ 0.75, default 1.0). -/
def nameFallbackRate (v2 : JsonV2) : ℚ :=
  let s := v2.play.mods.name.getD ""
  if strContains s ("NC") || strContains s ("DT") then mkRat 3 2
  else if strContains s ("HT") || strContains s ("DC") then mkRat 3 4
  else 1

/-- `extract_rate_from_v2` of src/main.rs (lines 228-245): the option chain
over the four sources, in source order. -/
def extract_rate_from_v2 (v2 : JsonV2) : Option ℚ :=
  (((primaryExplicitRate v2).or (primaryArrayRate v2)).or (rootModsRate v2)).orElse
    (fun _ => some (nameFallbackRate v2))

/-- Line 160 of src/main.rs: `extract_rate_from_v2(&v2).unwrap_or(1.0)` —
the spec's RateResolver. -/
def resolveRate (v2 : JsonV2) : ℚ :=
  (extract_rate_from_v2 v2).getD 1

/-- Round the value `num / den` (with `den > 0`) to the nearest integer,
ties to even — the rounding Rust float formatting applies. Works on the
numerator/denominator pair with integer arithmetic only. -/
def roundHalfEvenScaled (num : ℤ) (den : ℕ) : ℤ :=
  let f := Int.ediv num den
  let rem := num - f * den
  if 2 * rem < (den : ℤ) then f
  else if (den : ℤ) < 2 * rem then f + 1
  else if f % 2 = 0 then f else f + 1

/-- Two-digit zero-padded rendering of a residue below 100. -/
def twoDigits (n : Nat) : String :=
  if n < 10 then "0" ++ toString n else toString n

/-- Line 161 of src/main.rs: `format!("\x7b:.2\x7d", raw_rate)` — render a rate
with exactly two decimal digits (round to nearest hundredth, ties to even,
as Rust float formatting does). -/
def formatTwoDecimals (q : ℚ) : String :=
  let n := roundHalfEvenScaled (q.num * 100) q.den
  let sign := if n < 0 then "-" else ""
  let m := n.natAbs
  sign ++ toString (m / 100) ++ "." ++ twoDigits (m % 100)

example : formatTwoDecimals (mkRat 3 2) = "1.50" := by decide
example : formatTwoDecimals 1 = "1.00" := by decide
example : formatTwoDecimals (mkRat 3 4) = "0.75" := by decide
example : formatTwoDecimals (mkRat 1 8) = "0.12" := by decide

/-- `minacalc_rs::SkillsetScores` (external engine result; the fields the
loop reads at lines 206-213), values modelled as exact rationals. -/
structure SkillsetScores where
  overall : ℚ
  stamina : ℚ
  jumpstream : ℚ
  handstream : ℚ
  stream : ℚ
  chordjack : ℚ
  jackspeed : ℚ
  technical : ℚ
deriving DecidableEq

/-- `MsdOut` of src/main.rs (lines 15-28): the published msd.json payload. -/
structure MsdOut where
  song : String
  diff : String
  overall : ℚ
  stamina : ℚ
  jumpstream : ℚ
  handstream : ℚ
  stream : ℚ
  chordjack : ℚ
  jacks : ℚ
  technical : ℚ
  rate : String
deriving DecidableEq

/-- Line 157 of src/main.rs: the song label — `"artist - title"` unless both
parts are empty, in which case `"Unknown Song"`. -/
def song_full_label (artist title : String) : String :=
  if artist ≠ "" || title ≠ "" then artist ++ " - " ++ title else "Unknown Song"

/-- Lines 203-215 of src/main.rs: assemble the `MsdOut` record from the
display metadata, the engine scores and the formatted rate string (note
`jacks` is fed from the engine's `jackspeed` field). -/
def buildMsdOut (song diff : String) (scores : SkillsetScores) (rate_str : String) : MsdOut :=
  { song := song
    diff := diff
    overall := scores.overall
    stamina := scores.stamina
    jumpstream := scores.jumpstream
    handstream := scores.handstream
    stream := scores.stream
    chordjack := scores.chordjack
    jacks := scores.jackspeed
    technical := scores.technical
    rate := rate_str }

/-- The external collaborators of the loop, as deterministic functions:
`sha1Hex` is sha1_smol's hex digest (line 170), `utf8Decode` is
`String::from_utf8` (line 180), and `computeScores` folds the content
pipeline of lines 187-197 (rosu_map parse, `security_check`,
`to_notes_merged`, then `calc_ssr(notes, raw_rate, 93.0)`); each fallible
stage failing is `none`. -/
structure Engine where
  sha1Hex : List Nat → String
  utf8Decode : List Nat → Option String
  computeScores : String → ℚ → Option SkillsetScores

/-- The loop-carried dedupe state of src/main.rs (lines 141-143):
`last_sha1` and the `(sha1, rate_str)` pair `last_key`. -/
structure LoopState where
  last_sha1 : Option String
  last_key : Option (String × String)
deriving DecidableEq

/-- The per-tick external inputs: the decoded `/json/v2` snapshot (`none`
when the GET or its JSON decode fails, lines 148-151), the fetched chart
bytes (`none` when the GET or `bytes()` fails, lines 163-166), and whether
the `write_msd_json` call succeeds (line 216). -/
structure CycleInput where
  v2 : Option JsonV2
  osuBytes : Option (List Nat)
  writeOk : Bool

/-- Observable events of one loop iteration: whether the bytes were
fingerprinted (line 170 reached), whether the content stage was entered
(the dedupe check did not skip), whether publication was attempted
(`write_msd_json` called, line 216), whether the write succeeded, and the
assembled output document if any. -/
structure CycleEvents where
  fingerprinted : Bool
  computeEntered : Bool
  publishAttempted : Bool
  written : Bool
  out : Option MsdOut
deriving DecidableEq

/-- The events of a cycle that aborted before fingerprinting. -/
def noEvents : CycleEvents :=
  { fingerprinted := false
    computeEntered := false
    publishAttempted := false
    written := false
    out := none }

/-- One iteration of the loop body of src/main.rs (lines 145-223): fetch
the snapshot, resolve and format the rate, fetch the chart bytes, abort on
empty bytes, fingerprint, skip when `last_sha1` and `last_key` both match
the current `(sha1, rate_str)` (lines 172-174), otherwise advance both
dedupe fields (lines 176-177) and run decode → content pipeline → publish. -/
def stepCycle (E : Engine) (st : LoopState) (inp : CycleInput) : LoopState × CycleEvents :=
  match inp.v2 with
  | none => (st, noEvents)
  | some v2 =>
    let artist := v2.beatmap.artist.getD ""
    let title := v2.beatmap.title.getD ""
    let version := v2.beatmap.version.getD ""
    let song_full := song_full_label artist title
    let raw_rate := resolveRate v2
    let rate_str := formatTwoDecimals raw_rate
    match inp.osuBytes with
    | none => (st, noEvents)
    | some osu_bytes =>
      if osu_bytes = [] then (st, noEvents)
      else
        let sha1 := E.sha1Hex osu_bytes
        if st.last_sha1 = some sha1 ∧ st.last_key = some (sha1, rate_str) then
          (st, { noEvents with fingerprinted := true })
        else
          let st2 : LoopState := ⟨some sha1, some (sha1, rate_str)⟩
          match E.utf8Decode osu_bytes with
          | none => (st2, { noEvents with fingerprinted := true, computeEntered := true })
          | some osu_str =>
            match E.computeScores osu_str raw_rate with
            | none => (st2, { noEvents with fingerprinted := true, computeEntered := true })
            | some scores =>
              let out := buildMsdOut song_full version scores rate_str
              (st2, { fingerprinted := true
                      computeEntered := true
                      publishAttempted := true
                      written := inp.writeOk
                      out := some out })

/-- Iterating the loop body over a list of per-tick inputs. -/
def runCycles (E : Engine) (st : LoopState) : List CycleInput → LoopState
  | [] => st
  | i :: rest => runCycles E (stepCycle E st i).1 rest

/-- The dedupe state at process start (lines 141-143): both fields `None`. -/
def initState : LoopState := ⟨none, none⟩

/-- The current cycle's dedupe key (fingerprint of the fetched bytes, paired
with the two-decimal rendering of the resolved rate). -/
def dedupeKeyOf (E : Engine) (b : List Nat) (v2 : JsonV2) : String × String :=
  (E.sha1Hex b, formatTwoDecimals (resolveRate v2))


theorem stepCycle_v2_fail (E : Engine) (st : LoopState) (inp : CycleInput)
    (h : inp.v2 = none) : stepCycle E st inp = (st, noEvents) := by
  simp [stepCycle, h]

theorem stepCycle_bytes_fail (E : Engine) (st : LoopState) (inp : CycleInput)
    (v2 : JsonV2) (hv : inp.v2 = some v2) (hb : inp.osuBytes = none) :
    stepCycle E st inp = (st, noEvents) := by
  simp [stepCycle, hv, hb]

theorem stepCycle_bytes_empty (E : Engine) (st : LoopState) (inp : CycleInput)
    (v2 : JsonV2) (hv : inp.v2 = some v2) (hb : inp.osuBytes = some []) :
    stepCycle E st inp = (st, noEvents) := by
  simp [stepCycle, hv, hb]

/-- A cycle whose (fingerprint, rate) key matches both stored dedupe fields
is a no-op tick: state untouched, nothing past the fingerprint happens. -/
theorem stepCycle_skip (E : Engine) (st : LoopState) (inp : CycleInput)
    (v2 : JsonV2) (b : List Nat) (hv : inp.v2 = some v2)
    (hb : inp.osuBytes = some b) (hne : b ≠ [])
    (hsha : st.last_sha1 = some (E.sha1Hex b))
    (hkey : st.last_key = some (dedupeKeyOf E b v2)) :
    stepCycle E st inp = (st, { noEvents with fingerprinted := true }) := by
  simp only [dedupeKeyOf] at hkey
  simp [stepCycle, hv, hb, hne, hsha, hkey]

/-- After any cycle that fetched a snapshot and non-empty bytes, both dedupe
fields hold the current cycle's fingerprint and key — whether the cycle
skipped, failed at a content stage, or published. -/
theorem stepCycle_state_after_fetch (E : Engine) (st : LoopState) (inp : CycleInput)
    (v2 : JsonV2) (b : List Nat) (hv : inp.v2 = some v2)
    (hb : inp.osuBytes = some b) (hne : b ≠ []) :
    (stepCycle E st inp).1 = ⟨some (E.sha1Hex b), some (dedupeKeyOf E b v2)⟩ := by
  simp only [dedupeKeyOf]
  by_cases hskip : st.last_sha1 = some (E.sha1Hex b) ∧
      st.last_key = some (E.sha1Hex b, formatTwoDecimals (resolveRate v2))
  · obtain ⟨h1, h2⟩ := hskip
    cases st
    simp_all [stepCycle, hv, hb, hne]
  · cases hd : E.utf8Decode b with
    | none => simp [stepCycle, hv, hb, hne, hskip, hd]
    | some s =>
      cases hc : E.computeScores s (resolveRate v2) with
      | none => simp [stepCycle, hv, hb, hne, hskip, hd, hc]
      | some sc => simp [stepCycle, hv, hb, hne, hskip, hd, hc]

/-- A cycle whose key does not match the stored dedupe state enters the
content stage. -/
theorem stepCycle_noskip (E : Engine) (st : LoopState) (inp : CycleInput)
    (v2 : JsonV2) (b : List Nat) (hv : inp.v2 = some v2)
    (hb : inp.osuBytes = some b) (hne : b ≠ [])
    (hns : ¬(st.last_sha1 = some (E.sha1Hex b) ∧ st.last_key = some (dedupeKeyOf E b v2))) :
    (stepCycle E st inp).2.fingerprinted = true ∧
    (stepCycle E st inp).2.computeEntered = true := by
  simp only [dedupeKeyOf] at hns
  cases hd : E.utf8Decode b with
  | none => simp [stepCycle, hv, hb, hne, hns, hd, noEvents]
  | some s =>
    cases hc : E.computeScores s (resolveRate v2) with
    | none => simp [stepCycle, hv, hb, hne, hns, hd, hc, noEvents]
    | some sc => simp [stepCycle, hv, hb, hne, hns, hd, hc, noEvents]

/-- A non-skipped cycle whose content stages all succeed attempts
publication with the assembled document. -/
theorem stepCycle_publish (E : Engine) (st : LoopState) (inp : CycleInput)
    (v2 : JsonV2) (b : List Nat) (s : String) (sc : SkillsetScores)
    (hv : inp.v2 = some v2) (hb : inp.osuBytes = some b) (hne : b ≠ [])
    (hns : ¬(st.last_sha1 = some (E.sha1Hex b) ∧ st.last_key = some (dedupeKeyOf E b v2)))
    (hs : E.utf8Decode b = some s)
    (hc : E.computeScores s (resolveRate v2) = some sc) :
    (stepCycle E st inp).2.publishAttempted = true ∧
    (stepCycle E st inp).2.written = inp.writeOk ∧
    (stepCycle E st inp).2.out = some (buildMsdOut
      (song_full_label (v2.beatmap.artist.getD "") (v2.beatmap.title.getD ""))
      (v2.beatmap.version.getD "") sc (formatTwoDecimals (resolveRate v2))) := by
  simp only [dedupeKeyOf] at hns
  simp [stepCycle, hv, hb, hne, hns, hs, hc]

/-- A non-skipped cycle whose content stage fails does not attempt
publication. -/
theorem stepCycle_content_fail (E : Engine) (st : LoopState) (inp : CycleInput)
    (v2 : JsonV2) (b : List Nat)
    (hv : inp.v2 = some v2) (hb : inp.osuBytes = some b) (hne : b ≠ [])
    (hns : ¬(st.last_sha1 = some (E.sha1Hex b) ∧ st.last_key = some (dedupeKeyOf E b v2)))
    (hfail : E.utf8Decode b = none ∨
      ∃ s, E.utf8Decode b = some s ∧ E.computeScores s (resolveRate v2) = none) :
    (stepCycle E st inp).2 = { noEvents with fingerprinted := true, computeEntered := true } := by
  simp only [dedupeKeyOf] at hns
  rcases hfail with hd | ⟨s, hs, hc⟩
  · simp [stepCycle, hv, hb, hne, hns, hd]
  · simp [stepCycle, hv, hb, hne, hns, hs, hc]

theorem resolveRate_of_primary (v2 : JsonV2) (r : ℚ)
    (h : primaryExplicitRate v2 = some r) : resolveRate v2 = r := by
  unfold resolveRate extract_rate_from_v2
  rw [h]
  simp

theorem resolveRate_of_primaryArray (v2 : JsonV2) (r : ℚ)
    (h1 : primaryExplicitRate v2 = none) (h2 : primaryArrayRate v2 = some r) :
    resolveRate v2 = r := by
  unfold resolveRate extract_rate_from_v2
  rw [h1, h2]
  simp

theorem resolveRate_of_rootMods (v2 : JsonV2) (r : ℚ)
    (h1 : primaryExplicitRate v2 = none) (h2 : primaryArrayRate v2 = none)
    (h3 : rootModsRate v2 = some r) : resolveRate v2 = r := by
  unfold resolveRate extract_rate_from_v2
  rw [h1, h2, h3]
  simp

theorem resolveRate_of_fallback (v2 : JsonV2)
    (h1 : primaryExplicitRate v2 = none) (h2 : primaryArrayRate v2 = none)
    (h3 : rootModsRate v2 = none) : resolveRate v2 = nameFallbackRate v2 := by
  unfold resolveRate extract_rate_from_v2
  rw [h1, h2, h3]
  rfl

theorem extract_rate_isSome (v2 : JsonV2) : (extract_rate_from_v2 v2).isSome = true := by
  unfold extract_rate_from_v2
  cases h : ((primaryExplicitRate v2).or (primaryArrayRate v2)).or (rootModsRate v2) with
  | none => rfl
  | some r => rfl

/-- Claim C3: a snapshot whose primary mods location carries an explicit
rate field resolves to exactly that value, whatever else is present; and
resolution follows the precedence primary-explicit, primary-array
(rate else speed-change), root-level mods, mod-name fallback, stopping at
the first source that yields a value. -/
theorem primary_rate_wins_and_precedence (v2 : JsonV2) :
    (∀ r, primaryExplicitRate v2 = some r → resolveRate v2 = r) ∧
    (primaryExplicitRate v2 = none →
      ∀ r, primaryArrayRate v2 = some r → resolveRate v2 = r) ∧
    (primaryExplicitRate v2 = none → primaryArrayRate v2 = none →
      ∀ r, rootModsRate v2 = some r → resolveRate v2 = r) ∧
    (primaryExplicitRate v2 = none → primaryArrayRate v2 = none →
      rootModsRate v2 = none → resolveRate v2 = nameFallbackRate v2) :=
  ⟨fun r h => resolveRate_of_primary v2 r h,
   fun h1 r h2 => resolveRate_of_primaryArray v2 r h1 h2,
   fun h1 h2 r h3 => resolveRate_of_rootMods v2 r h1 h2 h3,
   fun h1 h2 h3 => resolveRate_of_fallback v2 h1 h2 h3⟩

/-- A snapshot with an explicit primary rate of 1.4, which also carries a
mod name, a mods array entry and a root-level mods structure that would
each suggest a different rate. -/
def snapC3 : JsonV2 :=
  { beatmap := { artist := some "a", title := some "t", version := some "v" }
    play := { mods :=
      { name := some "HT"
        array := some [{ settings := { speed_change := some (mkRat 1 2) }, rate := some 2 }]
        rate := some (mkRat 7 5) } }
    mods := some { name := some "DT", array := none, rate := some 3 } }

theorem primary_rate_wins_and_precedence_witness :
    primaryExplicitRate snapC3 = some (mkRat 7 5) ∧ resolveRate snapC3 = mkRat 7 5 :=
  ⟨by decide, (primary_rate_wins_and_precedence snapC3).1 (mkRat 7 5) (by decide)⟩

/-- Claim C4: when no explicit rate or array entry yields a value at either
mods location, the resolver falls back on the primary mod-name string —
1.5 on a double-time/nightcore marker, else 0.75 on a half-time/daycore
marker, else 1.0 — and the resolver is total: it yields a value on every
snapshot. -/
theorem name_fallback_and_totality (v2 : JsonV2)
    (h1 : primaryExplicitRate v2 = none) (h2 : primaryArrayRate v2 = none)
    (h3 : rootModsRate v2 = none) :
    (∀ w : JsonV2, (extract_rate_from_v2 w).isSome = true) ∧
    ((strContains (v2.play.mods.name.getD "") ("NC") ||
        strContains (v2.play.mods.name.getD "") ("DT")) = true →
      resolveRate v2 = mkRat 3 2) ∧
    ((strContains (v2.play.mods.name.getD "") ("NC") ||
        strContains (v2.play.mods.name.getD "") ("DT")) = false →
      (strContains (v2.play.mods.name.getD "") ("HT") ||
        strContains (v2.play.mods.name.getD "") ("DC")) = true →
      resolveRate v2 = mkRat 3 4) ∧
    ((strContains (v2.play.mods.name.getD "") ("NC") ||
        strContains (v2.play.mods.name.getD "") ("DT")) = false →
      (strContains (v2.play.mods.name.getD "") ("HT") ||
        strContains (v2.play.mods.name.getD "") ("DC")) = false →
      resolveRate v2 = 1) := by
  refine ⟨fun w => extract_rate_isSome w, ?_, ?_, ?_⟩ <;>
    rw [resolveRate_of_fallback v2 h1 h2 h3] <;> unfold nameFallbackRate
  · intro hdt
    simp [hdt]
  · intro hdt hht
    simp [hdt, hht]
  · intro hdt hht
    simp [hdt, hht]

/-- A snapshot whose only rate information is the mod name "DT". -/
def snapC4 : JsonV2 :=
  { beatmap := { artist := none, title := none, version := none }
    play := { mods := { name := some "DT", array := none, rate := none } }
    mods := none }

theorem name_fallback_and_totality_witness :
    (extract_rate_from_v2 snapC4).isSome = true ∧ resolveRate snapC4 = mkRat 3 2 :=
  ⟨((name_fallback_and_totality snapC4 (by decide) (by decide) (by decide)).1 snapC4),
   ((name_fallback_and_totality snapC4 (by decide) (by decide) (by decide)).2.1 (by decide))⟩

/-- Claim C10: the mod-name fallback reads only `play.mods.name`; when no
rate source yields a value and the primary name carries no marker, the
resolver returns 1.0 no matter what the root-level mods' name contains. -/
theorem fallback_ignores_root_mods_name (v2 : JsonV2)
    (h1 : primaryExplicitRate v2 = none) (h2 : primaryArrayRate v2 = none)
    (h3 : rootModsRate v2 = none)
    (hNC : strContains (v2.play.mods.name.getD "") ("NC") = false)
    (hDT : strContains (v2.play.mods.name.getD "") ("DT") = false)
    (hHT : strContains (v2.play.mods.name.getD "") ("HT") = false)
    (hDC : strContains (v2.play.mods.name.getD "") ("DC") = false) :
    resolveRate v2 = 1 := by
  rw [resolveRate_of_fallback v2 h1 h2 h3]
  unfold nameFallbackRate
  simp [hNC, hDT, hHT, hDC]

/-- A snapshot whose root-level mods name carries a double-time marker,
while the primary name is plain; every explicit rate source is empty. -/
def snapC10 : JsonV2 :=
  { beatmap := { artist := none, title := none, version := none }
    play := { mods := { name := some "HD", array := none, rate := none } }
    mods := some { name := some "DT", array := none, rate := none } }

theorem fallback_ignores_root_mods_name_witness : resolveRate snapC10 = 1 :=
  fallback_ignores_root_mods_name snapC10 (by decide) (by decide) (by decide)
    (by decide) (by decide) (by decide) (by decide)

/-- Claim C5: a cycle whose chart fetch returns an empty byte sequence
aborts before fingerprinting — no fingerprint is computed, the compute and
publish stages are not invoked, no write occurs, and the stored dedupe
state is unchanged. -/
theorem empty_bytes_abort (E : Engine) (st : LoopState) (inp : CycleInput)
    (v2 : JsonV2) (hv : inp.v2 = some v2) (hb : inp.osuBytes = some []) :
    (stepCycle E st inp).1 = st ∧ (stepCycle E st inp).2 = noEvents := by
  rw [stepCycle_bytes_empty E st inp v2 hv hb]
  exact ⟨rfl, rfl⟩

/-- A bare snapshot with no metadata and no rate information. -/
def snapC5 : JsonV2 :=
  { beatmap := { artist := none, title := none, version := none }
    play := { mods := { name := none, array := none, rate := none } }
    mods := none }

/-- An engine whose content stages always succeed. -/
def engC5 : Engine :=
  { sha1Hex := fun b => toString b.length
    utf8Decode := fun _ => some "chart"
    computeScores := fun _ _ => some ⟨1, 1, 1, 1, 1, 1, 1, 1⟩ }

/-- A stored dedupe state from some earlier successful cycle. -/
def stC5 : LoopState := ⟨some "5", some ("5", "1.00")⟩

/-- A tick whose chart fetch returned zero bytes. -/
def inpC5 : CycleInput := ⟨some snapC5, some [], true⟩

theorem empty_bytes_abort_witness :
    (stepCycle engC5 stC5 inpC5).1 = stC5 ∧ (stepCycle engC5 stC5 inpC5).2 = noEvents :=
  empty_bytes_abort engC5 stC5 inpC5 snapC5 (by decide) (by decide)

/-- An engine whose scoring pipeline always fails (e.g. the chart does not
parse), with a length-based stand-in fingerprint. -/
def engC1 : Engine :=
  { sha1Hex := fun b => toString b.length
    utf8Decode := fun _ => some "chart"
    computeScores := fun _ _ => none }

/-- A bare snapshot resolving to rate 1.0. -/
def snapC1 : JsonV2 :=
  { beatmap := { artist := none, title := none, version := none }
    play := { mods := { name := none, array := none, rate := none } }
    mods := none }

/-- Dedupe state left by an earlier chart whose fingerprint was "0". -/
def stC1 : LoopState := ⟨some "0", some ("0", "1.00")⟩

/-- A tick fetching a new three-byte chart (fingerprint "3"). -/
def inpC1 : CycleInput := ⟨some snapC1, some [7, 7, 7], true⟩

/-- Claim C1 is false on the code: here the chart bytes are non-empty and
fingerprinted, the content stage is entered and fails (the scoring call
returns no result, so nothing is published), yet the stored dedupe key does
not keep its value from before the cycle — it has already advanced from
("0", "1.00") to the current ("3", "1.00"). -/
theorem dedupeKey_content_failure_cex :
    (stepCycle engC1 stC1 inpC1).2.fingerprinted = true ∧
    (stepCycle engC1 stC1 inpC1).2.computeEntered = true ∧
    (stepCycle engC1 stC1 inpC1).2.publishAttempted = false ∧
    stC1.last_key = some ("0", "1.00") ∧
    (stepCycle engC1 stC1 inpC1).1.last_key = some ("3", "1.00") := by
  decide

/-- Claim C1 (amended): once the chart bytes are non-empty and
fingerprinted, the stored dedupe key is replaced with the current
(fingerprint, formatted-rate) pair immediately after the dedupe check —
whether or not a later content stage (UTF-8 decode, parse, validation,
conversion, scoring) succeeds — so a tick repeating the same (chart, rate)
pair after a content-stage failure skips instead of retrying; the key keeps
its prior value only when the cycle fails before the fingerprint. -/
theorem dedupeKey_advances_after_fingerprint (E : Engine) (st : LoopState)
    (inp : CycleInput) (v2 : JsonV2) (b : List Nat)
    (hv : inp.v2 = some v2) (hb : inp.osuBytes = some b) (hne : b ≠ []) :
    (stepCycle E st inp).1.last_key = some (dedupeKeyOf E b v2) ∧
    (stepCycle E st inp).1.last_sha1 = some (E.sha1Hex b) ∧
    (stepCycle E (stepCycle E st inp).1 inp).2.computeEntered = false := by
  have h := stepCycle_state_after_fetch E st inp v2 b hv hb hne
  refine ⟨by rw [h], by rw [h], ?_⟩
  have h2 := stepCycle_skip E (stepCycle E st inp).1 inp v2 b hv hb hne
    (by rw [h]) (by rw [h])
  rw [h2]
  rfl

theorem dedupeKey_advances_after_fingerprint_witness :
    (stepCycle engC1 stC1 inpC1).1.last_key = some (dedupeKeyOf engC1 [7, 7, 7] snapC1) ∧
    (stepCycle engC1 stC1 inpC1).1.last_sha1 = some (engC1.sha1Hex [7, 7, 7]) ∧
    (stepCycle engC1 (stepCycle engC1 stC1 inpC1).1 inpC1).2.computeEntered = false :=
  dedupeKey_advances_after_fingerprint engC1 stC1 inpC1 snapC1 [7, 7, 7]
    (by decide) (by decide) (by decide)

/-- Claim C2: for two consecutive cycles that both fetch non-empty chart
bytes (with the second cycle's content stage able to succeed), the second
cycle runs the compute-and-publish pipeline iff its (fingerprint,
formatted-rate) key differs from the first cycle's in at least one
component; an identical key yields a no-op tick with no engine call and no
file write, while identical bytes at a different resolved rate (or new
bytes) trigger recomputation. -/
theorem recompute_iff_key_changed (E : Engine) (st : LoopState)
    (i1 i2 : CycleInput) (w1 w2 : JsonV2) (b1 b2 : List Nat)
    (h1v : i1.v2 = some w1) (h1b : i1.osuBytes = some b1) (h1ne : b1 ≠ [])
    (h2v : i2.v2 = some w2) (h2b : i2.osuBytes = some b2) (h2ne : b2 ≠ [])
    (hcontent : ∃ s sc, E.utf8Decode b2 = some s ∧
      E.computeScores s (resolveRate w2) = some sc) :
    (((stepCycle E (stepCycle E st i1).1 i2).2.computeEntered = true ∧
      (stepCycle E (stepCycle E st i1).1 i2).2.publishAttempted = true) ↔
      dedupeKeyOf E b2 w2 ≠ dedupeKeyOf E b1 w1) ∧
    (dedupeKeyOf E b2 w2 = dedupeKeyOf E b1 w1 →
      (stepCycle E (stepCycle E st i1).1 i2).2 =
        { noEvents with fingerprinted := true }) := by
  have hst1 := stepCycle_state_after_fetch E st i1 w1 b1 h1v h1b h1ne
  rw [hst1]
  by_cases hkey : dedupeKeyOf E b2 w2 = dedupeKeyOf E b1 w1
  · have hfst : E.sha1Hex b2 = E.sha1Hex b1 := congrArg Prod.fst hkey
    have hsha : (⟨some (E.sha1Hex b1), some (dedupeKeyOf E b1 w1)⟩ : LoopState).last_sha1 =
        some (E.sha1Hex b2) := by
      simp [hfst]
    have hk : (⟨some (E.sha1Hex b1), some (dedupeKeyOf E b1 w1)⟩ : LoopState).last_key =
        some (dedupeKeyOf E b2 w2) := by
      simp [hkey]
    have hskip := stepCycle_skip E _ i2 w2 b2 h2v h2b h2ne hsha hk
    rw [hskip]
    constructor
    · simp [hkey, noEvents]
    · intro _
      rfl
  · have hns : ¬((⟨some (E.sha1Hex b1), some (dedupeKeyOf E b1 w1)⟩ : LoopState).last_sha1 =
        some (E.sha1Hex b2) ∧
        (⟨some (E.sha1Hex b1), some (dedupeKeyOf E b1 w1)⟩ : LoopState).last_key =
        some (dedupeKeyOf E b2 w2)) := by
      rintro ⟨-, hka⟩
      exact hkey (Option.some.inj hka).symm
    obtain ⟨s, sc, hs, hc⟩ := hcontent
    have hen := stepCycle_noskip E _ i2 w2 b2 h2v h2b h2ne hns
    have hpub := stepCycle_publish E _ i2 w2 b2 s sc h2v h2b h2ne hns hs hc
    refine ⟨⟨fun _ => hkey, fun _ => ⟨hen.2, hpub.1⟩⟩, fun h => absurd h hkey⟩

/-- An engine with a length-based stand-in fingerprint and an always
succeeding content pipeline. -/
def engC2 : Engine :=
  { sha1Hex := fun b => toString b.length
    utf8Decode := fun _ => some "chart"
    computeScores := fun _ _ => some ⟨2, 2, 2, 2, 2, 2, 2, 2⟩ }

/-- A bare snapshot resolving to rate 1.0. -/
def snapC2 : JsonV2 :=
  { beatmap := { artist := none, title := none, version := none }
    play := { mods := { name := none, array := none, rate := none } }
    mods := none }

/-- First tick: a three-byte chart. -/
def inpC2a : CycleInput := ⟨some snapC2, some [7, 7, 7], true⟩

/-- Second tick: a one-byte chart, so the fingerprint differs. -/
def inpC2b : CycleInput := ⟨some snapC2, some [7], true⟩

theorem recompute_iff_key_changed_witness :
    dedupeKeyOf engC2 [7] snapC2 ≠ dedupeKeyOf engC2 [7, 7, 7] snapC2 ∧
    (stepCycle engC2 (stepCycle engC2 initState inpC2a).1 inpC2b).2.computeEntered = true ∧
    (stepCycle engC2 (stepCycle engC2 initState inpC2a).1 inpC2b).2.publishAttempted = true :=
  ⟨by decide,
   (recompute_iff_key_changed engC2 initState inpC2a inpC2b snapC2 snapC2 [7, 7, 7] [7]
      (by decide) (by decide) (by decide) (by decide) (by decide) (by decide)
      ⟨"chart", ⟨2, 2, 2, 2, 2, 2, 2, 2⟩, rfl, rfl⟩).1.mpr (by decide)⟩

/-- Does every cycle of the list leave the compute stage untouched when run
from the given state? -/
def allSkipsFrom (E : Engine) (st : LoopState) : List CycleInput → Bool
  | [] => true
  | i :: rest =>
    !(stepCycle E st i).2.computeEntered && allSkipsFrom E (stepCycle E st i).1 rest

/-- From a state whose two dedupe fields hold the key `k`, any run of
cycles that keep presenting the key `k` performs no compute work and leaves
the state unchanged. -/
theorem runCycles_all_skip (E : Engine) (k : String × String) :
    ∀ l : List CycleInput,
    (∀ i ∈ l, ∃ w c, i.v2 = some w ∧ i.osuBytes = some c ∧ c ≠ [] ∧
      dedupeKeyOf E c w = k) →
    allSkipsFrom E ⟨some k.1, some k⟩ l = true ∧
    runCycles E ⟨some k.1, some k⟩ l = ⟨some k.1, some k⟩ := by
  intro l
  induction l with
  | nil => exact fun _ => ⟨rfl, rfl⟩
  | cons i rest ih =>
    intro hl
    obtain ⟨w, c, hv, hb, hne, hk⟩ := hl i (List.mem_cons_self i rest)
    have hfst : E.sha1Hex c = k.1 := congrArg Prod.fst hk
    have hsha : (⟨some k.1, some k⟩ : LoopState).last_sha1 = some (E.sha1Hex c) := by
      simp [hfst]
    have hkey : (⟨some k.1, some k⟩ : LoopState).last_key = some (dedupeKeyOf E c w) := by
      simp [hk]
    have hskip := stepCycle_skip E _ i w c hv hb hne hsha hkey
    have ihr := ih (fun j hj => hl j (List.mem_cons_of_mem i hj))
    constructor
    · unfold allSkipsFrom
      rw [hskip]
      exact ihr.1
    · unfold runCycles
      rw [hskip]
      exact ihr.2

/-- Claim C6: when the compute stage succeeds but the write of msd.json
fails, the in-memory dedupe key has already advanced to the current
(fingerprint, formatted-rate) pair, so later ticks presenting the same
pair skip — the pair is not recomputed or republished until the chart
bytes or the resolved rate change. -/
theorem publish_failure_not_retried (E : Engine) (st : LoopState) (inp : CycleInput)
    (v2 : JsonV2) (b : List Nat) (s : String) (sc : SkillsetScores)
    (hv : inp.v2 = some v2) (hb : inp.osuBytes = some b) (hne : b ≠ [])
    (hns : ¬(st.last_sha1 = some (E.sha1Hex b) ∧ st.last_key = some (dedupeKeyOf E b v2)))
    (hs : E.utf8Decode b = some s) (hc : E.computeScores s (resolveRate v2) = some sc)
    (hw : inp.writeOk = false)
    (l : List CycleInput)
    (hl : ∀ i ∈ l, ∃ w c, i.v2 = some w ∧ i.osuBytes = some c ∧ c ≠ [] ∧
      dedupeKeyOf E c w = dedupeKeyOf E b v2) :
    (stepCycle E st inp).2.publishAttempted = true ∧
    (stepCycle E st inp).2.written = false ∧
    (stepCycle E st inp).1.last_key = some (dedupeKeyOf E b v2) ∧
    allSkipsFrom E (stepCycle E st inp).1 l = true ∧
    runCycles E (stepCycle E st inp).1 l = (stepCycle E st inp).1 := by
  have hpub := stepCycle_publish E st inp v2 b s sc hv hb hne hns hs hc
  have hstate := stepCycle_state_after_fetch E st inp v2 b hv hb hne
  have hrun := runCycles_all_skip E (dedupeKeyOf E b v2) l hl
  refine ⟨hpub.1, by rw [hpub.2.1, hw], by rw [hstate], ?_, ?_⟩
  · rw [hstate]
    exact hrun.1
  · rw [hstate]
    exact hrun.2

/-- An engine that computes successfully, for a write-failure scenario. -/
def engC6 : Engine :=
  { sha1Hex := fun b => toString b.length
    utf8Decode := fun _ => some "chart"
    computeScores := fun _ _ => some ⟨6, 6, 6, 6, 6, 6, 6, 6⟩ }

/-- A bare snapshot resolving to rate 1.0. -/
def snapC6 : JsonV2 :=
  { beatmap := { artist := none, title := none, version := none }
    play := { mods := { name := none, array := none, rate := none } }
    mods := none }

/-- A tick whose msd.json write fails. -/
def inpC6 : CycleInput := ⟨some snapC6, some [7, 7], false⟩

/-- The same chart and rate presented again on a later tick. -/
def inpC6b : CycleInput := ⟨some snapC6, some [7, 7], true⟩

theorem publish_failure_not_retried_witness :
    (stepCycle engC6 initState inpC6).2.publishAttempted = true ∧
    (stepCycle engC6 initState inpC6).2.written = false ∧
    allSkipsFrom engC6 (stepCycle engC6 initState inpC6).1 [inpC6b, inpC6b] = true := by
  have h := publish_failure_not_retried engC6 initState inpC6 snapC6 [7, 7] "chart"
    ⟨6, 6, 6, 6, 6, 6, 6, 6⟩ (by decide) (by decide) (by decide)
    (by decide) rfl rfl (by decide) [inpC6b, inpC6b]
    (by
      intro i hi
      refine ⟨snapC6, [7, 7], ?_, ?_, ?_, ?_⟩ <;>
        cases hi with
        | head => decide
        | tail _ h2 =>
          cases h2 with
          | head => decide
          | tail _ h3 => cases h3)
  exact ⟨h.1, h.2.1, h.2.2.2.1⟩

/-- The dedupe-state coherence property: whenever `last_key` holds a pair
`(h, r)`, `last_sha1` holds the same hash `h`. -/
def DedupeInv (st : LoopState) : Prop :=
  ∀ h r, st.last_key = some (h, r) → st.last_sha1 = some h

theorem stepCycle_preserves_inv (E : Engine) (st : LoopState) (inp : CycleInput)
    (hInv : DedupeInv st) : DedupeInv (stepCycle E st inp).1 := by
  cases hv : inp.v2 with
  | none =>
    rw [stepCycle_v2_fail E st inp hv]
    exact hInv
  | some v2 =>
    cases hb : inp.osuBytes with
    | none =>
      rw [stepCycle_bytes_fail E st inp v2 hv hb]
      exact hInv
    | some b =>
      by_cases hne : b = []
      · subst hne
        rw [stepCycle_bytes_empty E st inp v2 hv hb]
        exact hInv
      · rw [stepCycle_state_after_fetch E st inp v2 b hv hb hne]
        intro h r hk
        simp only [dedupeKeyOf] at hk
        have hp : (E.sha1Hex b, formatTwoDecimals (resolveRate v2)) = (h, r) :=
          Option.some.inj hk
        have hh : E.sha1Hex b = h := congrArg Prod.fst hp
        simp [hh]

theorem runCycles_preserves_inv (E : Engine) :
    ∀ (l : List CycleInput) (st : LoopState),
    DedupeInv st → DedupeInv (runCycles E st l) := by
  intro l
  induction l with
  | nil => exact fun st h => h
  | cons i rest ih =>
    intro st hInv
    exact ih (stepCycle E st i).1 (stepCycle_preserves_inv E st i hInv)

/-- Claim C9: along every run of the loop from startup, whenever the stored
dedupe pair `last_key` is `some (h, r)`, the stored `last_sha1` is
`some h` with the same hash — the two pieces of dedupe state never
disagree on the fingerprint, because they are only updated together. -/
theorem dedupe_fields_agree_invariant (E : Engine) (l : List CycleInput) :
    DedupeInv (runCycles E initState l) := by
  have h0 : DedupeInv initState := by
    intro h r hk
    simp [initState] at hk
  exact runCycles_preserves_inv E l initState h0

theorem dedupe_fields_agree_invariant_witness :
    DedupeInv (runCycles engC6 initState [inpC6, inpC6b]) :=
  dedupe_fields_agree_invariant engC6 [inpC6, inpC6b]

/-- A fixed rating vector returned by the engine in the C7 scenario. -/
def scC7 : SkillsetScores := ⟨mkRat 21 2, 2, 3, 4, 5, 6, 7, 8⟩

/-- An engine that fingerprints by length and scores every chart with
`scC7`. -/
def engC7 : Engine :=
  { sha1Hex := fun b => toString b.length
    utf8Decode := fun _ => some "chart"
    computeScores := fun _ _ => some scC7 }

/-- The §8 scenario snapshot: artist "A", title "B", version "Hard",
play.mods.rate 1.5. -/
def snapC7 : JsonV2 :=
  { beatmap := { artist := some "A", title := some "B", version := some "Hard" }
    play := { mods := { name := none, array := none, rate := some (mkRat 3 2) } }
    mods := none }

/-- A tick fetching the one-byte chart "X" (byte 88). -/
def inpC7 : CycleInput := ⟨some snapC7, some [88], true⟩

/-- Claim C7: on the scenario snapshot (artist "A", title "B", version
"Hard", play.mods.rate 1.5) the published document carries song "A - B",
diff "Hard" and rate "1.50"; and in general every published document's
rate string is the resolved rate rendered to exactly two decimals, with
the same string stored as the rate component of the dedupe key. -/
theorem published_labels_and_rate_format :
    ((stepCycle engC7 initState inpC7).2.out.map MsdOut.song = some "A - B" ∧
     (stepCycle engC7 initState inpC7).2.out.map MsdOut.diff = some "Hard" ∧
     (stepCycle engC7 initState inpC7).2.out.map MsdOut.rate = some "1.50") ∧
    (∀ (E : Engine) (st : LoopState) (inp : CycleInput) (v2 : JsonV2)
        (b : List Nat) (m : MsdOut),
      inp.v2 = some v2 → inp.osuBytes = some b → b ≠ [] →
      (stepCycle E st inp).2.out = some m →
      m.rate = formatTwoDecimals (resolveRate v2) ∧
      (stepCycle E st inp).1.last_key = some (E.sha1Hex b, m.rate)) := by
  constructor
  · exact ⟨by decide, by decide, by decide⟩
  · intro E st inp v2 b m hv hb hne hout
    have hstate := stepCycle_state_after_fetch E st inp v2 b hv hb hne
    by_cases hskip : st.last_sha1 = some (E.sha1Hex b) ∧
        st.last_key = some (dedupeKeyOf E b v2)
    · rw [stepCycle_skip E st inp v2 b hv hb hne hskip.1 hskip.2] at hout
      simp [noEvents] at hout
    · cases hs : E.utf8Decode b with
      | none =>
        rw [stepCycle_content_fail E st inp v2 b hv hb hne hskip (Or.inl hs)] at hout
        simp [noEvents] at hout
      | some s =>
        cases hc : E.computeScores s (resolveRate v2) with
        | none =>
          rw [stepCycle_content_fail E st inp v2 b hv hb hne hskip
            (Or.inr ⟨s, hs, hc⟩)] at hout
          simp [noEvents] at hout
        | some sc =>
          have hpub := stepCycle_publish E st inp v2 b s sc hv hb hne hskip hs hc
          rw [hpub.2.2] at hout
          have hm := Option.some.inj hout
          have hrate : m.rate = formatTwoDecimals (resolveRate v2) := by
            rw [← hm]
            rfl
          refine ⟨hrate, ?_⟩
          rw [hstate, hrate]
          rfl

theorem published_labels_and_rate_format_witness :
    (stepCycle engC7 initState inpC7).1.last_key = some (engC7.sha1Hex [88], "1.50") := by
  have h := published_labels_and_rate_format.2 engC7 initState inpC7 snapC7 [88]
    (buildMsdOut "A - B" "Hard" scC7 "1.50") (by decide) (by decide) (by decide)
    (by decide)
  exact h.2

/-- A JSON value: string, number (exact rational, standing for the decimal
literal serde_json emits and reparses losslessly for f32), or object. -/
inductive Json where
  | str : String → Json
  | num : ℚ → Json
  | obj : List (String × Json) → Json

/-- serde_json serialization of `MsdOut` (the `derive(Serialize)` of lines
15-28): a JSON object whose fields appear in declaration order. -/
def MsdOut.toJson (m : MsdOut) : Json :=
  .obj [("song", .str m.song), ("diff", .str m.diff), ("overall", .num m.overall),
    ("stamina", .num m.stamina), ("jumpstream", .num m.jumpstream),
    ("handstream", .num m.handstream), ("stream", .num m.stream),
    ("chordjack", .num m.chordjack), ("jacks", .num m.jacks),
    ("technical", .num m.technical), ("rate", .str m.rate)]

/-- The string content of a JSON value, when it is a string. -/
def jstr : Json → Option String
  | .str s => some s
  | _ => none

/-- The numeric content of a JSON value, when it is a number. -/
def jnum : Json → Option ℚ
  | .num q => some q
  | _ => none

/-- Field lookup in a JSON object. -/
def jfield (j : Json) (k : String) : Option Json :=
  match j with
  | .obj fields => fields.lookup k
  | _ => none

/-- Modelled from the spec: reading the published msd.json document back.
The repository contains no deserializer for `MsdOut` (it only derives
`Serialize`); §6 fixes the output schema — fields `song`, `diff` (strings),
`overall`, `stamina`, `jumpstream`, `handstream`, `stream`, `chordjack`,
`jacks`, `technical` (numbers), `rate` (string) — and §8 asks that reading
the serialized document back restores the record. -/
def readMsdJson (j : Json) : Option MsdOut := do
  let song ← (jfield j ("song")).bind jstr
  let diff ← (jfield j ("diff")).bind jstr
  let overall ← (jfield j ("overall")).bind jnum
  let stamina ← (jfield j ("stamina")).bind jnum
  let jumpstream ← (jfield j ("jumpstream")).bind jnum
  let handstream ← (jfield j ("handstream")).bind jnum
  let stream ← (jfield j ("stream")).bind jnum
  let chordjack ← (jfield j ("chordjack")).bind jnum
  let jacks ← (jfield j ("jacks")).bind jnum
  let technical ← (jfield j ("technical")).bind jnum
  let rate ← (jfield j ("rate")).bind jstr
  pure { song := song, diff := diff, overall := overall, stamina := stamina,
         jumpstream := jumpstream, handstream := handstream, stream := stream,
         chordjack := chordjack, jacks := jacks, technical := technical,
         rate := rate }

/-- Claim C8: serializing the result assembled from any SkillRatingVector
into the output JSON schema and reading it back yields the same record —
every numeric field and the two-decimal rate string are preserved. -/
theorem msd_roundtrip (song diff : String) (sc : SkillsetScores) (q : ℚ) :
    readMsdJson (MsdOut.toJson (buildMsdOut song diff sc (formatTwoDecimals q))) =
      some (buildMsdOut song diff sc (formatTwoDecimals q)) ∧
    (buildMsdOut song diff sc (formatTwoDecimals q)).overall = sc.overall ∧
    (buildMsdOut song diff sc (formatTwoDecimals q)).stamina = sc.stamina ∧
    (buildMsdOut song diff sc (formatTwoDecimals q)).jumpstream = sc.jumpstream ∧
    (buildMsdOut song diff sc (formatTwoDecimals q)).handstream = sc.handstream ∧
    (buildMsdOut song diff sc (formatTwoDecimals q)).stream = sc.stream ∧
    (buildMsdOut song diff sc (formatTwoDecimals q)).chordjack = sc.chordjack ∧
    (buildMsdOut song diff sc (formatTwoDecimals q)).jacks = sc.jackspeed ∧
    (buildMsdOut song diff sc (formatTwoDecimals q)).technical = sc.technical ∧
    (buildMsdOut song diff sc (formatTwoDecimals q)).rate = formatTwoDecimals q := by
  refine ⟨?_, rfl, rfl, rfl, rfl, rfl, rfl, rfl, rfl, rfl⟩
  rfl

theorem msd_roundtrip_witness :
    readMsdJson (MsdOut.toJson (buildMsdOut "A - B" "Hard" scC7 (formatTwoDecimals 1))) =
      some (buildMsdOut "A - B" "Hard" scC7 (formatTwoDecimals 1)) :=
  (msd_roundtrip "A - B" "Hard" scC7 1).1

end MinacalcOverlay
